import Mathlib

/-!
Shallow embedding of `src/unicorn/engine/engine.py` (the Unicorn engine:
a streaming anomaly-likelihood runner), together with theorems checking the
natural-language specification against it.

Embedding conventions:
- Python scalar numbers (timestamps and metric values) are modelled as `Rat`.
- A Python function that falls off the end of its body without a `return`
  statement returns `None`; this is modelled with `Option` (value `none`).
- Python exceptions are modelled with `Except PyError`; the distinct exception
  classes that the embedded code can raise are the constructors of `PyError`.
- `stdin` is modelled as the list of strings that successive `readline` calls
  return, each line represented by the outcome of `json.loads` on it; the end
  of the list (or an explicit `eos` entry) is `readline` returning the empty
  string, which happens exactly when the pipe is closed.
-/

/-- The distinct Python exception classes the embedded code can raise or
propagate. `configurationError` is the `ConfigurationError` category of the
spec. -/
inductive PyError where
  | nameError (name : String)
  | indexError
  | valueError
  | attributeError (typeName member : String)
  | configurationError
  deriving DecidableEq, Repr

/-- Result of `datetime.utcfromtimestamp`: a UTC instant, identified by its
unix timestamp in seconds. -/
structure DateTime where
  unixSeconds : Rat
  deriving DecidableEq, Repr

/-- Model of `datetime.utcfromtimestamp`. -/
def utcfromtimestamp (ts : Rat) : DateTime := ⟨ts⟩

/-- A metric data sample: the two-tuple yielded by `_readInputMessages`,
`(<datetime-timestamp>, <scalar-value>)`. -/
structure Sample where
  timestamp : DateTime
  scalarValue : Rat
  deriving DecidableEq, Repr

/-- The `--stats` dictionary after schema validation, per
`engine/stats_schema.json`: keys `min`, `max` and the optional
`minResolution` (read with `stats.get`, so absence yields `None`). -/
structure Stats where
  min : Rat
  max : Rat
  minResolution : Option Rat
  deriving DecidableEq, Repr

/-- Opaque model configuration carried inside a swarm-params candidate;
the engine only forwards it to `ModelFactory.create`. -/
structure ModelConfig where
  minVal : Rat
  maxVal : Rat
  minResolution : Option Rat
  deriving DecidableEq, Repr

/-- Opaque inference arguments carried inside a swarm-params candidate;
the engine only forwards them to `model.enableInference`. -/
structure InferenceArgs where
  deriving DecidableEq, Repr

/-- One candidate configuration returned by the external parameter-selection
routine: a dictionary with keys `modelConfig` and `inferenceArgs`. -/
structure SwarmParams where
  modelConfig : ModelConfig
  inferenceArgs : InferenceArgs
  deriving DecidableEq, Repr

/-- An OPF model instance as far as the engine observes it: created by
`ModelFactory.create` from a model config, with learning and inference
toggles flipped by `enableLearning` / `enableInference`. -/
structure Model where
  modelConfig : ModelConfig
  learningEnabled : Bool
  inferenceArgs : Option InferenceArgs
  deriving DecidableEq, Repr

/-- Model of `nupic.frameworks.opf.modelfactory.ModelFactory.create`
(external library): builds a model from the given config, with learning and
inference initially disabled. -/
def ModelFactory.create (modelConfig : ModelConfig) : Model :=
  { modelConfig := modelConfig, learningEnabled := false, inferenceArgs := none }

/-- Model of `model.enableLearning()` (external library). -/
def Model.enableLearning (m : Model) : Model :=
  { m with learningEnabled := true }

/-- Model of `model.enableInference(inferenceArgs)` (external library). -/
def Model.enableInference (m : Model) (args : InferenceArgs) : Model :=
  { m with inferenceArgs := some args }

/-- The type of the external parameter-selection routine as the engine calls
it: `getScalarMetricWithTimeOfDayParams(metricData, minVal, maxVal,
minResolution)`, returning a list of candidate configurations or raising. -/
def GetParamsRoutine : Type :=
  List Rat → Rat → Rat → Option Rat → Except PyError (List SwarmParams)

/-- Modelled from the spec: `getScalarMetricWithTimeOfDayParams` lives in
`htmengine/algorithms/modelSelection/clusterParams.py`, which belongs to this
repository but is not under `src/`. Per the spec (sections 4.3 and 8) the
routine receives `(minVal, maxVal, minResolution)` and the bootstrap fails
with `ConfigurationError` when `min > max`; otherwise it returns its ranked
candidate configurations, best first. -/
def getScalarMetricWithTimeOfDayParams : GetParamsRoutine :=
  fun _metricData minVal maxVal minResolution =>
    if maxVal < minVal then
      .error .configurationError
    else
      .ok [{ modelConfig :=
               { minVal := minVal, maxVal := maxVal,
                 minResolution := minResolution },
             inferenceArgs := {} }]

/-- `_Anomalizer`: responsible for anomaly likelihood processing. The class
defines no `__init__` and its only method is a stub, so an instance carries
no state. -/
structure Anomalizer where
  deriving DecidableEq, Repr

/-- `_Anomalizer.process(timestamp, metricValue, rawAnomalyScore)`: the
method body is the single statement `pass` (the docstring promises a float
anomaly likelihood, but the TODO above the method reads "Flesh me out"), so
every call returns `None`. -/
def Anomalizer.process (_self : Anomalizer) (_timestamp : DateTime)
    (_metricValue : Rat) (_rawAnomalyScore : Rat) : Option Rat :=
  none

/-- Driver that performs a sequence of `_Anomalizer.process` calls on one
instance and collects the returned values (the stub mutates nothing, so the
instance is threaded unchanged). -/
def Anomalizer.processAll (self : Anomalizer)
    (calls : List (DateTime × Rat × Rat)) : List (Option Rat) :=
  calls.map fun c => self.process c.1 c.2.1 c.2.2

/-- `_ModelRunner._createModel(stats)`: calls the parameter-selection routine
with `metricData=[0]` and the stats bounds, takes `possibleModels[0]` (an
empty candidate list raises `IndexError` here), creates the model, enables
learning and inference — and then falls off the end of the body without a
`return` statement, so the caller receives `None`, never the model. -/
def createModel (gsm : GetParamsRoutine) (stats : Stats) :
    Except PyError (Option Model) :=
  match gsm [0] stats.min stats.max stats.minResolution with
  | .error e => .error e
  | .ok possibleModels =>
    match possibleModels.head? with
    | none => .error .indexError
    | some swarmParams =>
      let model := ModelFactory.create swarmParams.modelConfig
      let model := model.enableLearning
      let _ := model.enableInference swarmParams.inferenceArgs
      .ok none

/-- `_ModelRunner` instance state after `__init__`: the model id, the value
returned by `_createModel` bound to `self._model`, and the `_Anomalizer`. -/
structure ModelRunner where
  modelId : String
  model : Option Model
  anomalizer : Anomalizer
  deriving DecidableEq, Repr

/-- `_ModelRunner.__init__(modelId, stats)`: stores the model id, binds
`self._model = self._createModel(stats)` (propagating any exception) and
creates the `_Anomalizer`. -/
def ModelRunner.init (gsm : GetParamsRoutine) (modelId : String)
    (stats : Stats) : Except PyError ModelRunner :=
  match createModel gsm stats with
  | .error e => .error e
  | .ok model => .ok { modelId := modelId, model := model, anomalizer := {} }

/-- Opaque input record that `opfModelInputRecordFromSequence` would build;
never actually constructed, since that function does not exist. -/
structure InputRecord where
  deriving DecidableEq, Repr

/-- Inference results of an OPF model run, as the engine reads them
(`.inferences["anomalyScore"]`). -/
structure Inferences where
  anomalyScore : Rat
  deriving DecidableEq, Repr

/-- Return value of `model.run(inputRecord)`. -/
structure ModelRunResult where
  inferences : Inferences
  deriving DecidableEq, Repr

/-- Model of `model.run(inputRecord)` (external library): the inference
behaviour is opaque to the engine; the call site is in any case unreachable,
because `opfModelInputRecordFromSequence` raises first. -/
def Model.run (_m : Model) (_inputRecord : InputRecord) : ModelRunResult :=
  { inferences := { anomalyScore := 0 } }

/-- The name `opfModelInputRecordFromSequence` is not defined anywhere in
`engine.py` or its imports (the TODO at line 233 says it does not exist yet),
so evaluating the call expression raises `NameError` before any argument is
touched. -/
def opfModelInputRecordFromSequence (_inputRow : Sample) :
    Except PyError InputRecord :=
  .error (.nameError "opfModelInputRecordFromSequence")

/-- `_ModelRunner._computeAnomalyLikelihood(inputRow)`: builds the input
record (which raises `NameError`, see `opfModelInputRecordFromSequence`),
would then run the model (`self._model` is `None`, so the attribute access
`.run` would raise `AttributeError`) and finally hand the raw score to
`_Anomalizer.process`. -/
def ModelRunner.computeAnomalyLikelihood (self : ModelRunner)
    (inputRow : Sample) : Except PyError (Option Rat) :=
  match opfModelInputRecordFromSequence inputRow with
  | .error e => .error e
  | .ok inputRecord =>
    match self.model with
    | none => .error (.attributeError "NoneType" "run")
    | some model =>
      let rawAnomalyScore := (model.run inputRecord).inferences.anomalyScore
      .ok (self.anomalizer.process inputRow.timestamp inputRow.scalarValue
        rawAnomalyScore)

/-- One line produced by `sys.stdin.readline()`, represented by the outcome
of the processing applied to it: `wellFormed ts v` is a nonempty line whose
`json.loads` yields the two-element array `[ts, v]`; `malformed` is a
nonempty line on which `json.loads` raises `ValueError`; `eos` is the empty
string returned once the front end closes the pipe. -/
inductive StdinLine where
  | wellFormed (timestamp : Rat) (scalarValue : Rat)
  | malformed
  | eos
  deriving DecidableEq, Repr

/-- `_ModelRunner._readInputMessages()`: loops on `readline`; a nonempty
line is decoded with `json.loads` and yielded as
`(utcfromtimestamp ts, scalarValue)`; an empty read (closed pipe) breaks the
loop, and nothing after it is ever read. Exhausting the list also models the
closed pipe (`readline` keeps returning the empty string at EOF). -/
def readInputMessages : List StdinLine → Except PyError (List Sample)
  | [] => .ok []
  | .eos :: _ => .ok []
  | .malformed :: _ => .error .valueError
  | .wellFormed ts v :: rest =>
    match readInputMessages rest with
    | .error e => .error e
    | .ok samples => .ok (⟨utcfromtimestamp ts, v⟩ :: samples)

/-- One message written to stdout by `_ModelRunner._emitOutputMessage`:
`json.dumps([rowIndex, anomalyLikelihood])` (the likelihood slot holds
whatever `_computeAnomalyLikelihood` returned, `null` for `None`). -/
structure OutputMessage where
  rowIndex : Nat
  anomalyLikelihood : Option Rat
  deriving DecidableEq, Repr

/-- `_ModelRunner._emitOutputMessage(rowIndex, anomalyLikelihood)`. -/
def emitOutputMessage (rowIndex : Nat) (anomalyLikelihood : Option Rat) :
    OutputMessage :=
  { rowIndex := rowIndex, anomalyLikelihood := anomalyLikelihood }

/-- The body of `_ModelRunner.run` from a given row index: lazily pulls the
next message from the `_readInputMessages` generator, computes the anomaly
likelihood and emits one output message per consumed sample; any exception
stops the loop at once. Returns the emitted messages together with the
outcome of the loop. -/
def ModelRunner.runFrom (self : ModelRunner) (rowIndex : Nat) :
    List StdinLine → List OutputMessage × Except PyError Unit
  | [] => ([], .ok ())
  | .eos :: _ => ([], .ok ())
  | .malformed :: _ => ([], .error .valueError)
  | .wellFormed ts v :: rest =>
      match self.computeAnomalyLikelihood ⟨utcfromtimestamp ts, v⟩ with
      | .error e => ([], .error e)
      | .ok anomalyLikelihood =>
          let out := emitOutputMessage rowIndex anomalyLikelihood
          let (outs, res) := self.runFrom (rowIndex + 1) rest
          (out :: outs, res)

/-- `_ModelRunner.run()`: `enumerate` starts the row index at 0. -/
def ModelRunner.run (self : ModelRunner) (stdin : List StdinLine) :
    List OutputMessage × Except PyError Unit :=
  self.runFrom 0 stdin

/-- The structured error object `main` builds on failure:
`errorText = str(ex) or repr(ex)`, `diagnosticInfo = repr(ex)`. -/
structure ErrorMessage where
  errorText : String
  diagnosticInfo : String
  deriving DecidableEq, Repr

/-- Model of Python `str(ex)` for the exceptions in play. -/
def PyError.str : PyError → String
  | .nameError n => "name " ++ n ++ " is not defined"
  | .indexError => "list index out of range"
  | .valueError => "could not decode input message"
  | .attributeError t m => t ++ " object has no attribute " ++ m
  | .configurationError => "invalid stats configuration"

/-- Model of Python `repr(ex)` for the exceptions in play. -/
def PyError.repr : PyError → String
  | .nameError n => "NameError: " ++ n
  | .indexError => "IndexError"
  | .valueError => "ValueError"
  | .attributeError t m => "AttributeError: " ++ t ++ "." ++ m
  | .configurationError => "ConfigurationError"

/-- The error record `main` writes: `str(ex) or repr(ex)` falls back to the
repr when the str is empty. -/
def mkErrorMessage (ex : PyError) : ErrorMessage :=
  { errorText := if ex.str = "" then ex.repr else ex.str,
    diagnosticInfo := ex.repr }

/-- Everything `main` does in the `try` block: parse args (modelled by a
pre-parsed `modelId` and validated `stats`, since `_parseArgs` delegates to
external libraries), construct the `_ModelRunner` and run it. -/
def engineBody (gsm : GetParamsRoutine) (modelId : String) (stats : Stats)
    (stdin : List StdinLine) : List OutputMessage × Except PyError Unit :=
  match ModelRunner.init gsm modelId stats with
  | .error e => ([], .error e)
  | .ok runner => runner.run stdin

/-- Observable outcome of the whole process: stdout messages, stderr error
records, and the exception (if any) that escapes `main` uncaught — CPython
then terminates the process with a non-zero exit status. -/
structure MainResult where
  stdout : List OutputMessage
  stderr : List ErrorMessage
  uncaught : Option PyError
  deriving DecidableEq, Repr

namespace Engine

/-- `main()`: runs the engine; on any exception it logs, writes exactly one
structured error record to stderr, and re-raises the original exception
(`raise` inside the `try`/`finally`), which escapes uncaught. -/
def main (gsm : GetParamsRoutine) (modelId : String) (stats : Stats)
    (stdin : List StdinLine) : MainResult :=
  match engineBody gsm modelId stats stdin with
  | (outs, .ok ()) => { stdout := outs, stderr := [], uncaught := none }
  | (outs, .error ex) =>
      { stdout := outs, stderr := [mkErrorMessage ex], uncaught := some ex }

end Engine

/-! ## Theorems checking the specification claims -/

/-- C9: for every input row, `_ModelRunner._computeAnomalyLikelihood` raises
`NameError` before producing a raw anomaly score, because
`opfModelInputRecordFromSequence` is not defined anywhere in the module or
its imports; consequently, for any non-empty input stream the run loop
raises on the first sample and emits no output record at all. -/
theorem computeAnomalyLikelihood_raises_nameError :
    (∀ (r : ModelRunner) (row : Sample),
      r.computeAnomalyLikelihood row =
        .error (.nameError "opfModelInputRecordFromSequence"))
    ∧ (∀ (r : ModelRunner) (ts v : Rat) (rest : List StdinLine),
      r.run (.wellFormed ts v :: rest) =
        ([], .error (.nameError "opfModelInputRecordFromSequence"))) := by
  refine ⟨fun r row => rfl, fun r ts v rest => rfl⟩

/-- C1 (evaluation at the failing input): bootstrapping a runner from the
valid stats `min 0, max 100, minResolution 1` and feeding it the single
well-formed sample `[1000, 5.0]` emits zero output records — the run loop
dies with `NameError` on the first sample instead of emitting the record
with `sequenceIndex 0` that the claim requires. -/
theorem run_single_sample_emits_nothing :
    ModelRunner.init getScalarMetricWithTimeOfDayParams "m1"
        { min := 0, max := 100, minResolution := some 1 } =
      .ok { modelId := "m1", model := none, anomalizer := {} }
    ∧ ModelRunner.run { modelId := "m1", model := none, anomalizer := {} }
        [.wellFormed 1000 5] =
      ([], .error (.nameError "opfModelInputRecordFromSequence")) := by
  exact ⟨rfl, rfl⟩

/-- C10: `_createModel` has no `return` statement, so whenever it completes
without an exception it hands `None` back; consequently every successfully
constructed `_ModelRunner` has `self._model = None` rather than a model
instance. -/
theorem createModel_always_returns_none :
    (∀ (gsm : GetParamsRoutine) (stats : Stats) (result : Option Model),
      createModel gsm stats = .ok result → result = none)
    ∧ (∀ (gsm : GetParamsRoutine) (modelId : String) (stats : Stats)
        (r : ModelRunner),
      ModelRunner.init gsm modelId stats = .ok r → r.model = none) := by
  have h1 : ∀ (gsm : GetParamsRoutine) (stats : Stats) (result : Option Model),
      createModel gsm stats = .ok result → result = none := by
    intro gsm stats result h
    unfold createModel at h
    cases hg : gsm [0] stats.min stats.max stats.minResolution with
    | error e => rw [hg] at h; simp at h
    | ok l =>
      rw [hg] at h
      cases l with
      | nil => simp at h
      | cons p tl =>
        simp at h
        exact h.symm
  refine ⟨h1, fun gsm modelId stats r h => ?_⟩
  unfold ModelRunner.init at h
  cases hc : createModel gsm stats with
  | error e => rw [hc] at h; simp at h
  | ok m =>
    rw [hc] at h
    simp at h
    rw [← h]
    exact h1 gsm stats m hc

/-- C2 (evaluation at the failing input): on the valid stats
`min 0, max 100, minResolution 1` the bootstrap completes without an
exception but returns `None` — the model it instantiated and configured is
never returned to the caller, so no usable handle is produced. -/
theorem createModel_valid_stats_returns_none :
    createModel getScalarMetricWithTimeOfDayParams
      { min := 0, max := 100, minResolution := some 1 } = .ok none := rfl

/-- C3 (evaluation of the stub): `_Anomalizer.process` is the single
statement `pass`, so every call — cold start or not — returns `None`, not
the neutral float likelihood `0.0` the claim requires. -/
theorem anomalizer_process_returns_none :
    ∀ (a : Anomalizer) (t : DateTime) (v s : Rat), a.process t v s = none :=
  fun _ _ _ _ => rfl

/-- C5 (evaluation of the stub): feeding the estimator `W + k` calls that all
carry the same constant raw score never raises (the stub is total), but every
returned value is `None` — never the float likelihood `0` the claim
requires. -/
theorem anomalizer_constant_input_all_none :
    ∀ (a : Anomalizer) (w k : Nat) (t : DateTime) (v c : Rat),
      a.processAll (List.replicate (w + k) (t, v, c)) =
        List.replicate (w + k) none := by
  intro a w k t v c
  simp [Anomalizer.processAll, Anomalizer.process]

/-- C6 (evaluation of the stub): for any fixed window state and any two raw
scores, `_Anomalizer.process` returns the same value for both — namely
`None` — so the code produces no float likelihoods that could stand in the
monotone order the claim requires. -/
theorem anomalizer_no_likelihood_ordering :
    ∀ (a : Anomalizer) (t : DateTime) (v s1 s2 : Rat),
      a.process t v s1 = a.process t v s2 ∧ a.process t v s2 = none :=
  fun _ _ _ _ _ => ⟨rfl, rfl⟩

/-- C4 (counterexample): when the external parameter-selection routine
yields no candidate, `_createModel` fails with `IndexError` from evaluating
`possibleModels[0]`, not with `ConfigurationError` as the claim states. -/
theorem createModel_empty_candidates_indexError :
    createModel (fun _ _ _ _ => .ok [])
        { min := 0, max := 100, minResolution := some 1 } =
      .error .indexError
    ∧ PyError.indexError ≠ PyError.configurationError := by
  exact ⟨rfl, by decide⟩

/-- C4 (amended): if `statsConfig.min > statsConfig.max` the bootstrap fails
with `ConfigurationError` (raised inside the spec-modelled external
configurator) during `_ModelRunner` construction, before any streaming; if
the external routine yields no candidate, the bootstrap also fails before
any streaming, but with `IndexError` from `possibleModels[0]`, not with
`ConfigurationError`. -/
theorem bootstrap_failure_modes :
    (∀ (modelId : String) (stats : Stats), stats.max < stats.min →
      ModelRunner.init getScalarMetricWithTimeOfDayParams modelId stats =
        .error .configurationError)
    ∧ (∀ (gsm : GetParamsRoutine) (modelId : String) (stats : Stats),
      gsm [0] stats.min stats.max stats.minResolution = .ok [] →
      ModelRunner.init gsm modelId stats = .error .indexError) := by
  constructor
  · intro modelId stats h
    simp [ModelRunner.init, createModel, getScalarMetricWithTimeOfDayParams, h]
  · intro gsm modelId stats h
    simp [ModelRunner.init, createModel, h]

/-- Witness for `bootstrap_failure_modes` at concrete inputs: the stats
`min 5, max 1` trip the `ConfigurationError` branch, and a routine returning
an empty candidate list trips the `IndexError` branch. -/
theorem bootstrap_failure_modes_witness :
    ModelRunner.init getScalarMetricWithTimeOfDayParams "m1"
        { min := 5, max := 1, minResolution := none } =
      .error .configurationError
    ∧ ModelRunner.init (fun _ _ _ _ => .ok []) "m2"
        { min := 0, max := 100, minResolution := none } =
      .error .indexError := by
  exact ⟨bootstrap_failure_modes.1 "m1" _ (by norm_num),
    bootstrap_failure_modes.2 _ "m2" _ rfl⟩

/-- C7: when the input source signals end-of-stream (a read yields the empty
string), `_readInputMessages` stops after having yielded exactly one sample
per preceding well-formed line — nothing after the closed-pipe signal is
read and no sample is synthesized — and the run loop, reaching end-of-stream,
terminates normally with no error from the termination itself. -/
theorem eos_terminates_cleanly :
    (∀ (good : List (Rat × Rat)) (rest : List StdinLine),
      readInputMessages
          ((good.map fun p => StdinLine.wellFormed p.1 p.2) ++ .eos :: rest) =
        .ok (good.map fun p => ⟨utcfromtimestamp p.1, p.2⟩))
    ∧ (∀ (r : ModelRunner) (rest : List StdinLine),
      r.run (.eos :: rest) = ([], .ok ())) := by
  constructor
  · intro good rest
    induction good with
    | nil => rfl
    | cons p tail ih =>
      simp only [List.map_cons, List.cons_append, readInputMessages,
        List.append_eq, ih]
  · intro r rest
    rfl

/-- C8: whenever the engine body (configuration, input decoding, model
evaluation) fails with an unrecoverable exception, `main` writes exactly one
structured `errorText`/`diagnosticInfo` record to stderr and re-raises the
original exception, which escapes uncaught so the process exits with a
non-zero status; the error is neither retried nor swallowed. -/
theorem main_reports_error_once_and_reraises :
    ∀ (gsm : GetParamsRoutine) (modelId : String) (stats : Stats)
      (stdin : List StdinLine) (outs : List OutputMessage) (ex : PyError),
      engineBody gsm modelId stats stdin = (outs, .error ex) →
      (Engine.main gsm modelId stats stdin).stderr = [mkErrorMessage ex]
      ∧ (Engine.main gsm modelId stats stdin).uncaught = some ex := by
  intro gsm modelId stats stdin outs ex h
  simp [Engine.main, h]

/-- Witness for `main_reports_error_once_and_reraises`: with the inverted
stats `min 5, max 1` the engine fails during bootstrap, and `main` emits the
single corresponding error record and re-raises. -/
theorem main_reports_error_once_and_reraises_witness :
    (Engine.main getScalarMetricWithTimeOfDayParams "m1"
        { min := 5, max := 1, minResolution := none } []).stderr =
      [mkErrorMessage .configurationError]
    ∧ (Engine.main getScalarMetricWithTimeOfDayParams "m1"
        { min := 5, max := 1, minResolution := none } []).uncaught =
      some .configurationError := by
  exact main_reports_error_once_and_reraises
    getScalarMetricWithTimeOfDayParams "m1"
    { min := 5, max := 1, minResolution := none } [] [] .configurationError
    (by norm_num [engineBody, ModelRunner.init, createModel,
      getScalarMetricWithTimeOfDayParams])

/-- Witness for `createModel_always_returns_none` at concrete inputs: the
spec-modelled configurator with the valid stats `min 0, max 100,
minResolution 1` makes `_createModel` succeed, and the value it returns —
hence the `_model` attribute of the constructed runner — is `None`. -/
theorem createModel_always_returns_none_witness :
    (none : Option Model) = none
    ∧ ModelRunner.model
        { modelId := "m1", model := none, anomalizer := {} } = none :=
  ⟨createModel_always_returns_none.1 getScalarMetricWithTimeOfDayParams
      { min := 0, max := 100, minResolution := some 1 } none rfl,
    createModel_always_returns_none.2 getScalarMetricWithTimeOfDayParams "m1"
      { min := 0, max := 100, minResolution := some 1 }
      { modelId := "m1", model := none, anomalizer := {} } rfl⟩
